import Mathlib

/-!
Verification of the RxJS users → posts → comments pipeline (src/index.js).

The pipeline is embedded shallowly: an observable that emits at most one
value is modelled as a pair of the list of observation events produced so
far and an `Except String` outcome (the error carries the JS `Error`
message).  Each RxJS operator used by the source (`map`, `tap`,
`switchMap`, `catchError`, `finalize`) becomes a combinator on that type,
and `flow` composes them exactly as `flow$` does.  Network responses are
the pipeline's input: an `Env` gives the response of each endpoint.
The `switchMap` cancellation discipline, which the single-shot upstream
never exercises, is modelled separately by `switchLatest` over timed
emissions.
-/

namespace Pipeline

/-- Raw stage-1 payload element: `{id, name, email, ...}`; `extra` stands
for the additional fields the projection drops. -/
structure RawUser where
  id : Nat
  name : String
  email : String
  extra : String
deriving DecidableEq, Repr

/-- Projected user `{id, name, email}` (src/index.js lines 31-35). -/
structure User where
  id : Nat
  name : String
  email : String
deriving DecidableEq, Repr

/-- Raw stage-2 payload element: `{id, title, ...}`. -/
structure RawPost where
  id : Nat
  title : String
  extra : String
deriving DecidableEq, Repr

/-- Projected post `{id, title}` (src/index.js line 68). -/
structure Post where
  id : Nat
  title : String
deriving DecidableEq, Repr

/-- Raw stage-3 payload element: `{id, name, email, ...}`. -/
structure RawComment where
  id : Nat
  name : String
  email : String
  extra : String
deriving DecidableEq, Repr

/-- Projected comment `{id, name, email}` (src/index.js lines 87-91). -/
structure Comment where
  id : Nat
  name : String
  email : String
deriving DecidableEq, Repr

/-- The composed terminal value `{user, post, comments}` (src/index.js lines 84-92). -/
structure PipelineResult where
  user : User
  post : Post
  comments : List Comment
deriving DecidableEq, Repr

def projUser (u : RawUser) : User := ⟨u.id, u.name, u.email⟩

def projPost (p : RawPost) : Post := ⟨p.id, p.title⟩

def projComment (c : RawComment) : Comment := ⟨c.id, c.name, c.email⟩

/-- Outcome of one `fetch(url)`: either a network-level failure (the
promise rejects) or a response with a status code and a decoded body. -/
inductive FetchResult (α : Type) where
  | transportError (msg : String)
  | response (status : Nat) (body : α)
deriving DecidableEq, Repr

/-- A network request issued by the pipeline, identified by endpoint. -/
inductive Req where
  | users
  | posts (userId : Nat)
  | comments (postId : Nat)
deriving DecidableEq, Repr

/-- Events on the observation channel, in emission order: requests,
tap logs, the `catchError` report, and the `finalize` notification. -/
inductive Ev where
  | request (r : Req)
  | userCount (n : Nat)
  | selectedUser (u : User)
  | postCount (n : Nat)
  | selectedPost (p : Post)
  | chainError (msg : String)
  | finalized
deriving DecidableEq, Repr

/-- A single-emission observable run: events observed so far, then either
the emitted value or the error that terminated the stream. -/
abbrev Rx (α : Type) : Type := List Ev × Except String α

/-- RxJS `map` on a single-emission stream (the callbacks used in the
source are pure and total). -/
def mapO {α β : Type} (f : α → β) : Rx α → Rx β :=
  fun x => match x with
  | (l, Except.ok v) => (l, Except.ok (f v))
  | (l, Except.error e) => (l, Except.error e)

/-- RxJS `tap`: the callback yields the events it logs and, when it
throws, the message of the thrown error, which errors the stream. -/
def tapO {α : Type} (f : α → List Ev × Option String) : Rx α → Rx α :=
  fun x => match x with
  | (l, Except.ok v) =>
      match f v with
      | (l2, none) => (l ++ l2, Except.ok v)
      | (l2, some e) => (l ++ l2, Except.error e)
  | (l, Except.error e) => (l, Except.error e)

/-- RxJS `switchMap` on a single-emission upstream: the inner observable
derived from the (only) upstream value is run to completion.  The
cancellation discipline for re-emitting upstreams is `switchLatest`
below. -/
def switchMapO {α β : Type} (f : α → Rx β) : Rx α → Rx β :=
  fun x => match x with
  | (l, Except.ok v) => (l ++ (f v).1, (f v).2)
  | (l, Except.error e) => (l, Except.error e)

/-- The `catchError` stage of `flow$` (src/index.js lines 97-100): report
the error message and substitute `of(null)`, modelled as `none`. -/
def catchErrorO {α : Type} : Rx α → List Ev × Option α :=
  fun x => match x with
  | (l, Except.ok v) => (l, some v)
  | (l, Except.error e) => (l ++ [Ev.chainError e], none)

/-- The `finalize` stage (src/index.js lines 102-104): one notification
after the stream terminates, leaving the outcome untouched. -/
def finalizeO {α : Type} : List Ev × Option α → List Ev × Option α :=
  fun x => (x.1 ++ [Ev.finalized], x.2)

def usersUrl : String := "https://jsonplaceholder.typicode.com/users"

def postsUrl (userId : Nat) : String :=
  s!"https://jsonplaceholder.typicode.com/users/{userId}/posts"

def commentsUrl (postId : Nat) : String :=
  s!"https://jsonplaceholder.typicode.com/posts/{postId}/comments"

/-- Message of the error thrown on a non-2xx response
(src/index.js line 20). -/
def httpErrMsg (url : String) (status : Nat) : String :=
  s!"HTTP {status} en {url}"

/-- The responses the network gives this run, one per endpoint
(posts keyed by userId, comments by postId). -/
structure Env where
  usersResp : FetchResult (List RawUser)
  postsResp : Nat → FetchResult (List RawPost)
  commentsResp : Nat → FetchResult (List RawComment)

/-- `httpGetJson` (src/index.js lines 16-25): on a response, `res.ok`
(status in 200-299) yields the parsed body, any other status throws
`HTTP {status} en {url}`; a transport failure propagates its message. -/
def httpGetJson {α : Type} (url : String) (resp : FetchResult α) : Rx α :=
  match resp with
  | FetchResult.transportError msg => ([], Except.error msg)
  | FetchResult.response status body =>
      if 200 ≤ status ∧ status < 300 then ([], Except.ok body)
      else ([], Except.error (httpErrMsg url status))

/-- Record the outbound request of a fetch-backed observable. -/
def requestO {α : Type} (r : Req) (x : Rx α) : Rx α :=
  (Ev.request r :: x.1, x.2)

/-- `getUsers` (src/index.js lines 27-38): fetch `/users` and project
each element to `{id, name, email}`. -/
def getUsers (env : Env) : Rx (List User) :=
  mapO (fun users => users.map projUser)
    (requestO Req.users (httpGetJson usersUrl env.usersResp))

/-- `getUserPosts` (src/index.js lines 41-44): fetch `/users/{userId}/posts`. -/
def getUserPosts (env : Env) (userId : Nat) : Rx (List RawPost) :=
  requestO (Req.posts userId) (httpGetJson (postsUrl userId) (env.postsResp userId))

/-- `getPostComments` (src/index.js lines 46-49): fetch `/posts/{postId}/comments`. -/
def getPostComments (env : Env) (postId : Nat) : Rx (List RawComment) :=
  requestO (Req.comments postId) (httpGetJson (commentsUrl postId) (env.commentsResp postId))

/-- Intermediate shape `{user, posts}` built at src/index.js lines 66-69. -/
structure Bundle where
  user : User
  posts : List Post
deriving DecidableEq, Repr

/-- The operator chain of `flow$` before `catchError` (src/index.js
lines 52-94): tap the user count, select `users[0]`, tap the selection
(throwing `No hay usuarios disponibles.` when it is undefined), switch
to that user's posts projected to `{id, title}`, tap the post count,
and switch to the first post's comments (signalling
`El usuario no tiene publicaciones.` when there is none), composing the
final `{user, post, comments}`. -/
def flowChain (env : Env) : Rx PipelineResult :=
  switchMapO (fun b =>
    match b.posts[0]? with
    | none => ([], Except.error "El usuario no tiene publicaciones.")
    | some firstPost =>
        let inner := mapO
          (fun comments => PipelineResult.mk b.user firstPost (comments.map projComment))
          (getPostComments env firstPost.id)
        (Ev.selectedPost firstPost :: inner.1, inner.2))
  (tapO (fun b => ([Ev.postCount b.posts.length], none))
  (switchMapO (fun u? =>
    match u? with
    | none => ([], Except.error "Cannot read properties of undefined")
    | some u => mapO (fun posts => Bundle.mk u (posts.map projPost)) (getUserPosts env u.id))
  (tapO (fun u? =>
    match u? with
    | none => ([], some "No hay usuarios disponibles.")
    | some u => ([Ev.selectedUser u], none))
  (mapO (fun users => users[0]?)
  (tapO (fun users => ([Ev.userCount users.length], none))
  (getUsers env))))))

/-- `flow$` up to and including `catchError`. -/
def flowCaught (env : Env) : List Ev × Option PipelineResult :=
  catchErrorO (flowChain env)

/-- The whole `flow$` pipeline (src/index.js lines 52-105). -/
def flow (env : Env) : List Ev × Option PipelineResult :=
  finalizeO (flowCaught env)

/-- One line of the subscriber's formatted output (src/index.js
lines 107-119). -/
inductive Line where
  | header
  | userLine (u : User)
  | postLine (p : Post)
  | commentCount (n : Nat)
  | firstComment (c : Comment)
  | footer
deriving DecidableEq, Repr

/-- The subscriber callback (src/index.js lines 107-119): nothing for a
null result; otherwise the summary block, with the first-comment line
only when `comments[0]` exists. -/
def subscriberLines : Option PipelineResult → List Line :=
  fun r? => match r? with
  | none => []
  | some r =>
      [Line.header, Line.userLine r.user, Line.postLine r.post,
       Line.commentCount r.comments.length] ++
      (match r.comments with
       | [] => []
       | c :: _ => [Line.firstComment c]) ++
      [Line.footer]

def isChainError : Ev → Bool :=
  fun e => match e with
  | Ev.chainError _ => true
  | _ => false

def isFinalized : Ev → Bool :=
  fun e => match e with
  | Ev.finalized => true
  | _ => false

def isPostsReq : Ev → Bool :=
  fun e => match e with
  | Ev.request (Req.posts _) => true
  | _ => false

def isCommentsReq : Ev → Bool :=
  fun e => match e with
  | Ev.request (Req.comments _) => true
  | _ => false

def isFirstCommentLine : Line → Bool :=
  fun l => match l with
  | Line.firstComment _ => true
  | _ => false

/-- Number of `catchError` reports in a trace. -/
def countErr (l : List Ev) : Nat := (l.filter isChainError).length

/-- Number of finalize notifications in a trace. -/
def countFin (l : List Ev) : Nat := (l.filter isFinalized).length

/-- Sample raw user of the end-to-end scenario. -/
def u1 : RawUser := ⟨1, "Leanne", "a@b.com", ""⟩

/-- Sample raw post of the end-to-end scenario. -/
def p1 : RawPost := ⟨1, "T1", ""⟩

/-- Sample raw comment of the end-to-end scenario. -/
def c1 : RawComment := ⟨1, "C", "c@d.com", ""⟩

/-- Environment of the end-to-end success scenario. -/
def envC1 : Env :=
  ⟨FetchResult.response 200 [u1],
   fun _ => FetchResult.response 200 [p1],
   fun _ => FetchResult.response 200 [c1]⟩

/-- Environment whose users fetch succeeds with an empty collection. -/
def envC4 : Env :=
  ⟨FetchResult.response 200 [],
   fun _ => FetchResult.response 200 [p1],
   fun _ => FetchResult.response 200 [c1]⟩

/-- Environment whose selected user has no posts. -/
def envC5 : Env :=
  ⟨FetchResult.response 200 [u1],
   fun _ => FetchResult.response 200 [],
   fun _ => FetchResult.response 200 [c1]⟩

/-- Environment whose users endpoint answers 500. -/
def envC6 : Env :=
  ⟨FetchResult.response 500 [u1],
   fun _ => FetchResult.response 200 [p1],
   fun _ => FetchResult.response 200 [c1]⟩

/-- Environment whose posts endpoint answers 500. -/
def envC6p : Env :=
  ⟨FetchResult.response 200 [u1],
   fun _ => FetchResult.response 500 [p1],
   fun _ => FetchResult.response 200 [c1]⟩

/-- Environment whose comments endpoint answers 500. -/
def envC6c : Env :=
  ⟨FetchResult.response 200 [u1],
   fun _ => FetchResult.response 200 [p1],
   fun _ => FetchResult.response 500 [c1]⟩

/-- Environment whose selected post has no comments. -/
def envC10 : Env :=
  ⟨FetchResult.response 200 [u1],
   fun _ => FetchResult.response 200 [p1],
   fun _ => FetchResult.response 200 []⟩

/-- A timed upstream emission: arrival time and value. -/
structure Emit (α : Type) where
  t : Nat
  val : α
deriving DecidableEq, Repr

/-- Semantics of the `switchMap` operator (rxjs) used at src/index.js
lines 64 and 77, for an upstream that may re-emit: the inner request
derived from value `v` arriving at time `t` completes at `t + dur v`
with result `res v`, and its result is observed only if no later
upstream emission arrives before it completes — a new upstream value
unsubscribes the in-flight inner observable. -/
def switchLatest {α β : Type} (dur : α → Nat) (res : α → β) : List (Emit α) → List β :=
  fun ups => match ups with
  | [] => []
  | [e] => [res e.val]
  | e :: e2 :: rest =>
      (if e.t + dur e.val < e2.t then [res e.val] else []) ++
      switchLatest dur res (e2 :: rest)

/-- `finalize` only appends its notification to the trace. -/
theorem flow_fst (env : Env) : (flow env).1 = (flowCaught env).1 ++ [Ev.finalized] := rfl

/-- `finalize` leaves the outcome untouched. -/
theorem flow_snd (env : Env) : (flow env).2 = (flowCaught env).2 := rfl

/-- Path: the users fetch fails at transport level. -/
theorem flowCaught_users_transport (env : Env) (m : String)
    (hu : env.usersResp = FetchResult.transportError m) :
    flowCaught env = ([Ev.request Req.users, Ev.chainError m], none) := by
  simp [flowCaught, catchErrorO, flowChain, switchMapO, tapO, mapO, getUsers,
    getUserPosts, getPostComments, requestO, httpGetJson, hu]

/-- Path: the users endpoint answers a non-2xx status. -/
theorem flowCaught_users_status (env : Env) (s : Nat) (us : List RawUser)
    (hs : ¬(200 ≤ s ∧ s < 300))
    (hu : env.usersResp = FetchResult.response s us) :
    flowCaught env =
      ([Ev.request Req.users, Ev.chainError (httpErrMsg usersUrl s)], none) := by
  simp [flowCaught, catchErrorO, flowChain, switchMapO, tapO, mapO, getUsers,
    getUserPosts, getPostComments, requestO, httpGetJson, hu, hs]

/-- Path: the users fetch succeeds but the collection is empty. -/
theorem flowCaught_users_empty (env : Env) (s : Nat)
    (hs : 200 ≤ s ∧ s < 300)
    (hu : env.usersResp = FetchResult.response s []) :
    flowCaught env =
      ([Ev.request Req.users, Ev.userCount 0,
        Ev.chainError "No hay usuarios disponibles."], none) := by
  simp [flowCaught, catchErrorO, flowChain, switchMapO, tapO, mapO, getUsers,
    getUserPosts, getPostComments, requestO, httpGetJson, hu, hs]

/-- Path: the posts fetch fails at transport level. -/
theorem flowCaught_posts_transport (env : Env) (s : Nat) (u0 : RawUser)
    (urest : List RawUser) (m : String)
    (hs : 200 ≤ s ∧ s < 300)
    (hu : env.usersResp = FetchResult.response s (u0 :: urest))
    (hp : env.postsResp u0.id = FetchResult.transportError m) :
    flowCaught env =
      ([Ev.request Req.users, Ev.userCount (urest.length + 1),
        Ev.selectedUser (projUser u0), Ev.request (Req.posts u0.id),
        Ev.chainError m], none) := by
  simp [flowCaught, catchErrorO, flowChain, switchMapO, tapO, mapO, getUsers,
    getUserPosts, getPostComments, requestO, httpGetJson, hu, hs, hp, projUser]

/-- Path: the posts endpoint answers a non-2xx status. -/
theorem flowCaught_posts_status (env : Env) (s s2 : Nat) (u0 : RawUser)
    (urest : List RawUser) (ps : List RawPost)
    (hs : 200 ≤ s ∧ s < 300) (hs2 : ¬(200 ≤ s2 ∧ s2 < 300))
    (hu : env.usersResp = FetchResult.response s (u0 :: urest))
    (hp : env.postsResp u0.id = FetchResult.response s2 ps) :
    flowCaught env =
      ([Ev.request Req.users, Ev.userCount (urest.length + 1),
        Ev.selectedUser (projUser u0), Ev.request (Req.posts u0.id),
        Ev.chainError (httpErrMsg (postsUrl u0.id) s2)], none) := by
  simp [flowCaught, catchErrorO, flowChain, switchMapO, tapO, mapO, getUsers,
    getUserPosts, getPostComments, requestO, httpGetJson, hu, hs, hp, hs2, projUser]

/-- Path: the selected user has no posts. -/
theorem flowCaught_posts_empty (env : Env) (s s2 : Nat) (u0 : RawUser)
    (urest : List RawUser)
    (hs : 200 ≤ s ∧ s < 300) (hs2 : 200 ≤ s2 ∧ s2 < 300)
    (hu : env.usersResp = FetchResult.response s (u0 :: urest))
    (hp : env.postsResp u0.id = FetchResult.response s2 []) :
    flowCaught env =
      ([Ev.request Req.users, Ev.userCount (urest.length + 1),
        Ev.selectedUser (projUser u0), Ev.request (Req.posts u0.id),
        Ev.postCount 0, Ev.chainError "El usuario no tiene publicaciones."], none) := by
  simp [flowCaught, catchErrorO, flowChain, switchMapO, tapO, mapO, getUsers,
    getUserPosts, getPostComments, requestO, httpGetJson, hu, hs, hp, hs2, projUser]

/-- Path: the comments fetch fails at transport level. -/
theorem flowCaught_comments_transport (env : Env) (s s2 : Nat) (u0 : RawUser)
    (urest : List RawUser) (p0 : RawPost) (prest : List RawPost) (m : String)
    (hs : 200 ≤ s ∧ s < 300) (hs2 : 200 ≤ s2 ∧ s2 < 300)
    (hu : env.usersResp = FetchResult.response s (u0 :: urest))
    (hp : env.postsResp u0.id = FetchResult.response s2 (p0 :: prest))
    (hc : env.commentsResp p0.id = FetchResult.transportError m) :
    flowCaught env =
      ([Ev.request Req.users, Ev.userCount (urest.length + 1),
        Ev.selectedUser (projUser u0), Ev.request (Req.posts u0.id),
        Ev.postCount (prest.length + 1), Ev.selectedPost (projPost p0),
        Ev.request (Req.comments p0.id), Ev.chainError m], none) := by
  simp [flowCaught, catchErrorO, flowChain, switchMapO, tapO, mapO, getUsers,
    getUserPosts, getPostComments, requestO, httpGetJson, hu, hs, hp, hs2, hc,
    projUser, projPost]

/-- Path: the comments endpoint answers a non-2xx status. -/
theorem flowCaught_comments_status (env : Env) (s s2 s3 : Nat) (u0 : RawUser)
    (urest : List RawUser) (p0 : RawPost) (prest : List RawPost)
    (cs : List RawComment)
    (hs : 200 ≤ s ∧ s < 300) (hs2 : 200 ≤ s2 ∧ s2 < 300)
    (hs3 : ¬(200 ≤ s3 ∧ s3 < 300))
    (hu : env.usersResp = FetchResult.response s (u0 :: urest))
    (hp : env.postsResp u0.id = FetchResult.response s2 (p0 :: prest))
    (hc : env.commentsResp p0.id = FetchResult.response s3 cs) :
    flowCaught env =
      ([Ev.request Req.users, Ev.userCount (urest.length + 1),
        Ev.selectedUser (projUser u0), Ev.request (Req.posts u0.id),
        Ev.postCount (prest.length + 1), Ev.selectedPost (projPost p0),
        Ev.request (Req.comments p0.id),
        Ev.chainError (httpErrMsg (commentsUrl p0.id) s3)], none) := by
  simp [flowCaught, catchErrorO, flowChain, switchMapO, tapO, mapO, getUsers,
    getUserPosts, getPostComments, requestO, httpGetJson, hu, hs, hp, hs2, hc,
    hs3, projUser, projPost]

/-- Path: all three stages succeed and users and posts are non-empty. -/
theorem flowCaught_success (env : Env) (s s2 s3 : Nat) (u0 : RawUser)
    (urest : List RawUser) (p0 : RawPost) (prest : List RawPost)
    (cs : List RawComment)
    (hs : 200 ≤ s ∧ s < 300) (hs2 : 200 ≤ s2 ∧ s2 < 300)
    (hs3 : 200 ≤ s3 ∧ s3 < 300)
    (hu : env.usersResp = FetchResult.response s (u0 :: urest))
    (hp : env.postsResp u0.id = FetchResult.response s2 (p0 :: prest))
    (hc : env.commentsResp p0.id = FetchResult.response s3 cs) :
    flowCaught env =
      ([Ev.request Req.users, Ev.userCount (urest.length + 1),
        Ev.selectedUser (projUser u0), Ev.request (Req.posts u0.id),
        Ev.postCount (prest.length + 1), Ev.selectedPost (projPost p0),
        Ev.request (Req.comments p0.id)],
       some (PipelineResult.mk (projUser u0) (projPost p0) (cs.map projComment))) := by
  simp [flowCaught, catchErrorO, flowChain, switchMapO, tapO, mapO, getUsers,
    getUserPosts, getPostComments, requestO, httpGetJson, hu, hs, hp, hs2, hc,
    hs3, projUser, projPost]

/-- Every run either recovers from exactly one error with no result, or
emits one result with no error report; `finalize` never fires before
`catchError`. -/
theorem flowCaught_cases (env : Env) :
    (∃ l, flowCaught env = (l, none) ∧ countErr l = 1 ∧ countFin l = 0) ∨
    (∃ l r, flowCaught env = (l, some r) ∧ countErr l = 0 ∧ countFin l = 0) := by
  rcases hu : env.usersResp with m | ⟨s, us⟩
  · exact Or.inl ⟨_, flowCaught_users_transport env m hu,
      by simp [countErr, isChainError], by simp [countFin, isFinalized]⟩
  · by_cases hs : 200 ≤ s ∧ s < 300
    · rcases us with _ | ⟨u0, urest⟩
      · exact Or.inl ⟨_, flowCaught_users_empty env s hs hu,
          by simp [countErr, isChainError], by simp [countFin, isFinalized]⟩
      · rcases hp : env.postsResp u0.id with m2 | ⟨s2, ps⟩
        · exact Or.inl ⟨_, flowCaught_posts_transport env s u0 urest m2 hs hu hp,
            by simp [countErr, isChainError], by simp [countFin, isFinalized]⟩
        · by_cases hs2 : 200 ≤ s2 ∧ s2 < 300
          · rcases ps with _ | ⟨p0, prest⟩
            · exact Or.inl ⟨_, flowCaught_posts_empty env s s2 u0 urest hs hs2 hu hp,
                by simp [countErr, isChainError], by simp [countFin, isFinalized]⟩
            · rcases hc : env.commentsResp p0.id with m3 | ⟨s3, cs⟩
              · exact Or.inl ⟨_,
                  flowCaught_comments_transport env s s2 u0 urest p0 prest m3 hs hs2 hu hp hc,
                  by simp [countErr, isChainError], by simp [countFin, isFinalized]⟩
              · by_cases hs3 : 200 ≤ s3 ∧ s3 < 300
                · exact Or.inr ⟨_, _,
                    flowCaught_success env s s2 s3 u0 urest p0 prest cs hs hs2 hs3 hu hp hc,
                    by simp [countErr, isChainError], by simp [countFin, isFinalized]⟩
                · exact Or.inl ⟨_,
                    flowCaught_comments_status env s s2 s3 u0 urest p0 prest cs hs hs2 hs3 hu hp hc,
                    by simp [countErr, isChainError], by simp [countFin, isFinalized]⟩
          · exact Or.inl ⟨_, flowCaught_posts_status env s s2 u0 urest ps hs hs2 hu hp,
              by simp [countErr, isChainError], by simp [countFin, isFinalized]⟩
    · exact Or.inl ⟨_, flowCaught_users_status env s us hs hu,
        by simp [countErr, isChainError], by simp [countFin, isFinalized]⟩

/-- Appending the finalize notification adds no error report. -/
theorem countErr_append_fin (l : List Ev) :
    countErr (l ++ [Ev.finalized]) = countErr l := by
  simp [countErr, List.filter_append, isChainError]

/-- Appending the finalize notification adds one finalize notification. -/
theorem countFin_append_fin (l : List Ev) :
    countFin (l ++ [Ev.finalized]) = countFin l + 1 := by
  simp [countFin, List.filter_append, isFinalized]

/-- C1: when the users fetch, the selected user's posts fetch and the
selected post's comments fetch all succeed with non-empty users and
posts, the pipeline emits exactly the composed PipelineResult whose user
is the projection of the first user, whose post is the projection of the
first of that user's posts, and whose comments are the element-wise
projection of the comments array. -/
theorem flow_success (env : Env) (s s2 s3 : Nat) (u0 : RawUser)
    (urest : List RawUser) (p0 : RawPost) (prest : List RawPost)
    (cs : List RawComment)
    (hs : 200 ≤ s ∧ s < 300) (hs2 : 200 ≤ s2 ∧ s2 < 300)
    (hs3 : 200 ≤ s3 ∧ s3 < 300)
    (hu : env.usersResp = FetchResult.response s (u0 :: urest))
    (hp : env.postsResp u0.id = FetchResult.response s2 (p0 :: prest))
    (hc : env.commentsResp p0.id = FetchResult.response s3 cs) :
    (flow env).2 =
      some (PipelineResult.mk (projUser u0) (projPost p0) (cs.map projComment)) := by
  rw [flow_snd, flowCaught_success env s s2 s3 u0 urest p0 prest cs hs hs2 hs3 hu hp hc]

/-- Witness for C1: the end-to-end scenario of the spec. -/
theorem flow_success_witness :
    (flow envC1).2 =
      some (PipelineResult.mk (User.mk 1 "Leanne" "a@b.com") (Post.mk 1 "T1")
        [Comment.mk 1 "C" "c@d.com"]) :=
  flow_success envC1 200 200 200 u1 [] p1 [] [c1]
    (by decide) (by decide) (by decide) rfl rfl rfl

/-- C2: every error, wherever raised in the chain, is caught exactly once
by the recovery stage, reported once on the observation channel, and
converted into the empty outcome; a run never reports more than one
error, and reports one exactly when its outcome is empty (so no
exception ever reaches the subscriber — `flow` is total). -/
theorem errors_caught_once (env : Env) :
    countErr (flow env).1 ≤ 1 ∧
    ((flow env).2 = none ↔ countErr (flow env).1 = 1) := by
  rcases flowCaught_cases env with ⟨l, hl, he, -⟩ | ⟨l, r, hl, he, -⟩ <;>
  · rw [flow_fst, flow_snd, hl]
    simp [countErr_append_fin, he]

/-- C3: on every path the finalization notification appears exactly once,
as the last event of the trace (hence after the outcome is determined),
and the outcome equals the outcome of the pipeline before `finalize`. -/
theorem finalize_exactly_once (env : Env) :
    countFin (flow env).1 = 1 ∧
    (flow env).1.getLast? = some Ev.finalized ∧
    (flow env).2 = (flowCaught env).2 := by
  have h0 : countFin (flowCaught env).1 = 0 := by
    rcases flowCaught_cases env with ⟨l, hl, -, hf⟩ | ⟨l, r, hl, -, hf⟩ <;>
      simp [hl, hf]
  refine ⟨?_, ?_, rfl⟩
  · rw [flow_fst, countFin_append_fin, h0]
  · rw [flow_fst]
    simp

/-- C4: when the users fetch succeeds with an empty collection, the run
ends with the empty outcome, the observation channel carries the
no-users error message, no posts or comments request is issued, and the
finalization notification still fires exactly once. -/
theorem empty_users_empty_outcome (env : Env) (s : Nat)
    (hs : 200 ≤ s ∧ s < 300)
    (hu : env.usersResp = FetchResult.response s []) :
    (flow env).2 = none ∧
    Ev.chainError "No hay usuarios disponibles." ∈ (flow env).1 ∧
    ((flow env).1.all fun e => !(isPostsReq e) && !(isCommentsReq e)) = true ∧
    countFin (flow env).1 = 1 := by
  rw [flow_fst, flow_snd, flowCaught_users_empty env s hs hu]
  simp [isPostsReq, isCommentsReq, countFin, isFinalized, List.filter_append]

/-- Witness for C4: an empty users collection with status 200. -/
theorem empty_users_empty_outcome_witness :
    (flow envC4).2 = none ∧
    Ev.chainError "No hay usuarios disponibles." ∈ (flow envC4).1 ∧
    ((flow envC4).1.all fun e => !(isPostsReq e) && !(isCommentsReq e)) = true ∧
    countFin (flow envC4).1 = 1 :=
  empty_users_empty_outcome envC4 200 (by decide) rfl

/-- C5: when the selected user's posts collection is empty, the run ends
with the empty outcome carrying the no-publications error message, and
no comments request is ever issued. -/
theorem empty_posts_empty_outcome (env : Env) (s s2 : Nat) (u0 : RawUser)
    (urest : List RawUser)
    (hs : 200 ≤ s ∧ s < 300) (hs2 : 200 ≤ s2 ∧ s2 < 300)
    (hu : env.usersResp = FetchResult.response s (u0 :: urest))
    (hp : env.postsResp u0.id = FetchResult.response s2 []) :
    (flow env).2 = none ∧
    Ev.chainError "El usuario no tiene publicaciones." ∈ (flow env).1 ∧
    ((flow env).1.all fun e => !(isCommentsReq e)) = true := by
  rw [flow_fst, flow_snd, flowCaught_posts_empty env s s2 u0 urest hs hs2 hu hp]
  simp [isCommentsReq]

/-- Witness for C5: one user whose posts collection is empty. -/
theorem empty_posts_empty_outcome_witness :
    (flow envC5).2 = none ∧
    Ev.chainError "El usuario no tiene publicaciones." ∈ (flow envC5).1 ∧
    ((flow envC5).1.all fun e => !(isCommentsReq e)) = true :=
  empty_posts_empty_outcome envC5 200 200 u1 [] (by decide) (by decide) rfl rfl

/-- C6: a non-2xx response makes `httpGetJson` signal the error carrying
that URL and status without looking at the body (any two bodies give the
same error), and in the pipeline a non-2xx response from any endpoint
ends the run with the empty outcome carrying the status error and no
subsequent stage executing: a users-stage failure issues no posts or
comments request, a posts-stage failure issues no comments request, and
a comments-stage failure still yields the empty outcome. -/
theorem non2xx_status_fails {α : Type} (url : String) (s : Nat) (b1 b2 : α)
    (envU : Env) (sU : Nat) (usU : List RawUser)
    (envP : Env) (sUP sP : Nat) (uP : RawUser) (urestP : List RawUser)
    (psP : List RawPost)
    (envC : Env) (sUC sPC sC : Nat) (uC : RawUser) (urestC : List RawUser)
    (pC : RawPost) (prestC : List RawPost) (csC : List RawComment)
    (hns : ¬(200 ≤ s ∧ s < 300))
    (hnsU : ¬(200 ≤ sU ∧ sU < 300))
    (hU : envU.usersResp = FetchResult.response sU usU)
    (hPu : envP.usersResp = FetchResult.response sUP (uP :: urestP))
    (hPu2 : 200 ≤ sUP ∧ sUP < 300)
    (hPp : envP.postsResp uP.id = FetchResult.response sP psP)
    (hnsP : ¬(200 ≤ sP ∧ sP < 300))
    (hCu : envC.usersResp = FetchResult.response sUC (uC :: urestC))
    (hCu2 : 200 ≤ sUC ∧ sUC < 300)
    (hCp : envC.postsResp uC.id = FetchResult.response sPC (pC :: prestC))
    (hCp2 : 200 ≤ sPC ∧ sPC < 300)
    (hCc : envC.commentsResp pC.id = FetchResult.response sC csC)
    (hnsC : ¬(200 ≤ sC ∧ sC < 300)) :
    httpGetJson url (FetchResult.response s b1) =
      ([], Except.error (httpErrMsg url s)) ∧
    httpGetJson url (FetchResult.response s b1) =
      httpGetJson url (FetchResult.response s b2) ∧
    ((flow envU).2 = none ∧
      Ev.chainError (httpErrMsg usersUrl sU) ∈ (flow envU).1 ∧
      ((flow envU).1.all fun e => !(isPostsReq e) && !(isCommentsReq e)) = true) ∧
    ((flow envP).2 = none ∧
      Ev.chainError (httpErrMsg (postsUrl uP.id) sP) ∈ (flow envP).1 ∧
      ((flow envP).1.all fun e => !(isCommentsReq e)) = true) ∧
    ((flow envC).2 = none ∧
      Ev.chainError (httpErrMsg (commentsUrl pC.id) sC) ∈ (flow envC).1) := by
  refine ⟨by simp [httpGetJson, hns], by simp [httpGetJson, hns], ?_, ?_, ?_⟩
  · simp [flow_fst, flow_snd, flowCaught_users_status envU sU usU hnsU hU,
      isPostsReq, isCommentsReq]
  · simp [flow_fst, flow_snd,
      flowCaught_posts_status envP sUP sP uP urestP psP hPu2 hnsP hPu hPp,
      isPostsReq, isCommentsReq]
  · simp [flow_fst, flow_snd,
      flowCaught_comments_status envC sUC sPC sC uC urestC pC prestC csC
        hCu2 hCp2 hnsC hCu hCp hCc]

/-- Witness for C6: a 500 on an arbitrary URL with two different bodies,
and a 500 from each of the three endpoints in turn. -/
theorem non2xx_status_fails_witness :
    httpGetJson "u" (FetchResult.response 500 [u1]) =
      ([], Except.error (httpErrMsg "u" 500)) ∧
    httpGetJson "u" (FetchResult.response 500 [u1]) =
      httpGetJson "u" (FetchResult.response 500 []) ∧
    ((flow envC6).2 = none ∧
      Ev.chainError (httpErrMsg usersUrl 500) ∈ (flow envC6).1 ∧
      ((flow envC6).1.all fun e => !(isPostsReq e) && !(isCommentsReq e)) = true) ∧
    ((flow envC6p).2 = none ∧
      Ev.chainError (httpErrMsg (postsUrl 1) 500) ∈ (flow envC6p).1 ∧
      ((flow envC6p).1.all fun e => !(isCommentsReq e)) = true) ∧
    ((flow envC6c).2 = none ∧
      Ev.chainError (httpErrMsg (commentsUrl 1) 500) ∈ (flow envC6c).1) :=
  non2xx_status_fails "u" 500 [u1] []
    envC6 500 [u1]
    envC6p 200 500 u1 [] [p1]
    envC6c 200 200 500 u1 [] p1 [] [c1]
    (by decide) (by decide) rfl
    rfl (by decide) rfl (by decide)
    rfl (by decide) rfl (by decide) rfl (by decide)

/-- C7: any emitted PipelineResult is internally consistent: its user is
the projected head of the fetched users, its post the projected head of
the posts fetched for that user's id, and its comments the projection of
the comments fetched for that post's id; the outcome type allows at most
one result per run. -/
theorem result_consistency (env : Env) (r : PipelineResult)
    (h : (flow env).2 = some r) :
    (∃ s us urest u0, env.usersResp = FetchResult.response s us ∧
      (200 ≤ s ∧ s < 300) ∧ us = u0 :: urest ∧ r.user = projUser u0) ∧
    (∃ s2 ps prest p0, env.postsResp r.user.id = FetchResult.response s2 ps ∧
      (200 ≤ s2 ∧ s2 < 300) ∧ ps = p0 :: prest ∧ r.post = projPost p0) ∧
    (∃ s3 cs, env.commentsResp r.post.id = FetchResult.response s3 cs ∧
      (200 ≤ s3 ∧ s3 < 300) ∧ r.comments = cs.map projComment) := by
  rw [flow_snd] at h
  rcases hu : env.usersResp with m | ⟨s, us⟩
  · rw [flowCaught_users_transport env m hu] at h; simp at h
  · by_cases hs : 200 ≤ s ∧ s < 300
    · rcases us with _ | ⟨u0, urest⟩
      · rw [flowCaught_users_empty env s hs hu] at h; simp at h
      · rcases hp : env.postsResp u0.id with m2 | ⟨s2, ps⟩
        · rw [flowCaught_posts_transport env s u0 urest m2 hs hu hp] at h
          simp at h
        · by_cases hs2 : 200 ≤ s2 ∧ s2 < 300
          · rcases ps with _ | ⟨p0, prest⟩
            · rw [flowCaught_posts_empty env s s2 u0 urest hs hs2 hu hp] at h
              simp at h
            · rcases hc : env.commentsResp p0.id with m3 | ⟨s3, cs⟩
              · rw [flowCaught_comments_transport env s s2 u0 urest p0 prest m3
                  hs hs2 hu hp hc] at h
                simp at h
              · by_cases hs3 : 200 ≤ s3 ∧ s3 < 300
                · rw [flowCaught_success env s s2 s3 u0 urest p0 prest cs
                    hs hs2 hs3 hu hp hc] at h
                  simp at h
                  subst h
                  exact ⟨⟨s, u0 :: urest, urest, u0, rfl, hs, rfl, rfl⟩,
                    ⟨s2, p0 :: prest, prest, p0, hp, hs2, rfl, rfl⟩,
                    ⟨s3, cs, hc, hs3, rfl⟩⟩
                · rw [flowCaught_comments_status env s s2 s3 u0 urest p0 prest cs
                    hs hs2 hs3 hu hp hc] at h
                  simp at h
          · rw [flowCaught_posts_status env s s2 u0 urest ps hs hs2 hu hp] at h
            simp at h
    · rw [flowCaught_users_status env s us hs hu] at h; simp at h

/-- Witness for C7: consistency at the end-to-end scenario environment. -/
theorem result_consistency_witness :
    (∃ s us urest u0, envC1.usersResp = FetchResult.response s us ∧
      (200 ≤ s ∧ s < 300) ∧ us = u0 :: urest ∧
      (PipelineResult.mk (User.mk 1 "Leanne" "a@b.com") (Post.mk 1 "T1")
        [Comment.mk 1 "C" "c@d.com"]).user = projUser u0) ∧
    (∃ s2 ps prest p0, envC1.postsResp (PipelineResult.mk
        (User.mk 1 "Leanne" "a@b.com") (Post.mk 1 "T1")
        [Comment.mk 1 "C" "c@d.com"]).user.id = FetchResult.response s2 ps ∧
      (200 ≤ s2 ∧ s2 < 300) ∧ ps = p0 :: prest ∧
      (PipelineResult.mk (User.mk 1 "Leanne" "a@b.com") (Post.mk 1 "T1")
        [Comment.mk 1 "C" "c@d.com"]).post = projPost p0) ∧
    (∃ s3 cs, envC1.commentsResp (PipelineResult.mk
        (User.mk 1 "Leanne" "a@b.com") (Post.mk 1 "T1")
        [Comment.mk 1 "C" "c@d.com"]).post.id = FetchResult.response s3 cs ∧
      (200 ≤ s3 ∧ s3 < 300) ∧
      (PipelineResult.mk (User.mk 1 "Leanne" "a@b.com") (Post.mk 1 "T1")
        [Comment.mk 1 "C" "c@d.com"]).comments = cs.map projComment) :=
  result_consistency envC1
    (PipelineResult.mk (User.mk 1 "Leanne" "a@b.com") (Post.mk 1 "T1")
      [Comment.mk 1 "C" "c@d.com"]) rfl

/-- C8: under the switch-to-latest discipline of `switchMap`, when a new
upstream value arrives while the request derived from the previous value
is still in flight (arrival no later than that request's completion),
the in-flight request is cancelled: the output equals the output of the
stream restarted at the new value, so no superseded result is ever
observed or merged; a single-shot upstream always observes its one
derived result. -/
theorem switch_cancel_superseded {α β : Type} (dur : α → Nat) (res : α → β)
    (e e2 : Emit α) (rest : List (Emit α))
    (h : e2.t ≤ e.t + dur e.val) :
    switchLatest dur res (e :: e2 :: rest) = switchLatest dur res (e2 :: rest) ∧
    switchLatest dur res [e2] = [res e2.val] := by
  constructor
  · have hn : ¬(e.t + dur e.val < e2.t) := not_lt.mpr h
    simp [switchLatest, hn]
  · simp [switchLatest]

/-- Witness for C8: value 5 at time 0 with a 5-tick request is superseded
by value 1 arriving at time 3. -/
theorem switch_cancel_superseded_witness :
    switchLatest (fun n => n) (fun n : Nat => n * 10)
        [Emit.mk 0 5, Emit.mk 3 1] =
      switchLatest (fun n => n) (fun n : Nat => n * 10) [Emit.mk 3 1] ∧
    switchLatest (fun n => n) (fun n : Nat => n * 10) [Emit.mk 3 1] =
      [(Emit.mk 3 1).val * 10] :=
  switch_cancel_superseded (fun n => n) (fun n => n * 10)
    (Emit.mk 0 5) (Emit.mk 3 1) [] (by decide)

/-- C9: the pipeline is deterministic in its input data: two runs fed
identical responses on all three endpoints produce identical traces and
outcomes, and for a non-empty users collection both runs select exactly
the element at index 0. -/
theorem pipeline_deterministic (e1 e2 : Env) (s : Nat) (u0 : RawUser)
    (urest : List RawUser)
    (hu : e1.usersResp = e2.usersResp)
    (hp : ∀ uid, e1.postsResp uid = e2.postsResp uid)
    (hc : ∀ pid, e1.commentsResp pid = e2.commentsResp pid)
    (hus : e1.usersResp = FetchResult.response s (u0 :: urest))
    (hs : 200 ≤ s ∧ s < 300) :
    flow e1 = flow e2 ∧
    Ev.selectedUser (projUser u0) ∈ (flow e1).1 ∧
    Ev.selectedUser (projUser u0) ∈ (flow e2).1 := by
  have heq : e1 = e2 := by
    obtain ⟨a, b, c⟩ := e1
    obtain ⟨a2, b2, c2⟩ := e2
    simp only at hu hp hc
    rw [hu, funext hp, funext hc]
  subst heq
  have hmem : Ev.selectedUser (projUser u0) ∈ (flow e1).1 := by
    rcases hp2 : e1.postsResp u0.id with m2 | ⟨s2, ps⟩
    · rw [flow_fst, flowCaught_posts_transport e1 s u0 urest m2 hs hus hp2]
      simp
    · by_cases hs2 : 200 ≤ s2 ∧ s2 < 300
      · rcases ps with _ | ⟨p0, prest⟩
        · rw [flow_fst, flowCaught_posts_empty e1 s s2 u0 urest hs hs2 hus hp2]
          simp
        · rcases hc2 : e1.commentsResp p0.id with m3 | ⟨s3, cs⟩
          · rw [flow_fst, flowCaught_comments_transport e1 s s2 u0 urest p0 prest
              m3 hs hs2 hus hp2 hc2]
            simp
          · by_cases hs3 : 200 ≤ s3 ∧ s3 < 300
            · rw [flow_fst, flowCaught_success e1 s s2 s3 u0 urest p0 prest cs
                hs hs2 hs3 hus hp2 hc2]
              simp
            · rw [flow_fst, flowCaught_comments_status e1 s s2 s3 u0 urest p0
                prest cs hs hs2 hs3 hus hp2 hc2]
              simp
      · rw [flow_fst, flowCaught_posts_status e1 s s2 u0 urest ps hs hs2 hus hp2]
        simp
  exact ⟨rfl, hmem, hmem⟩

/-- Witness for C9: two runs over the end-to-end scenario environment. -/
theorem pipeline_deterministic_witness :
    flow envC1 = flow envC1 ∧
    Ev.selectedUser (User.mk 1 "Leanne" "a@b.com") ∈ (flow envC1).1 ∧
    Ev.selectedUser (User.mk 1 "Leanne" "a@b.com") ∈ (flow envC1).1 :=
  pipeline_deterministic envC1 envC1 200 u1 [] rfl (fun _ => rfl) (fun _ => rfl)
    rfl (by decide)

/-- C10: an empty comments collection is not an error: with non-empty
users and posts and three successful fetches whose comments body is
empty, the run emits a successful PipelineResult with an empty comments
sequence, no error is reported, and the subscriber's summary carries a
zero comment count and no first-comment line. -/
theorem empty_comments_success (env : Env) (s s2 s3 : Nat) (u0 : RawUser)
    (urest : List RawUser) (p0 : RawPost) (prest : List RawPost)
    (hs : 200 ≤ s ∧ s < 300) (hs2 : 200 ≤ s2 ∧ s2 < 300)
    (hs3 : 200 ≤ s3 ∧ s3 < 300)
    (hu : env.usersResp = FetchResult.response s (u0 :: urest))
    (hp : env.postsResp u0.id = FetchResult.response s2 (p0 :: prest))
    (hc : env.commentsResp p0.id = FetchResult.response s3 []) :
    (flow env).2 = some (PipelineResult.mk (projUser u0) (projPost p0) []) ∧
    countErr (flow env).1 = 0 ∧
    ((subscriberLines (flow env).2).all fun l => !(isFirstCommentLine l)) = true ∧
    Line.commentCount 0 ∈ subscriberLines (flow env).2 := by
  have hfc := flowCaught_success env s s2 s3 u0 urest p0 prest [] hs hs2 hs3 hu hp hc
  simp only [flow_fst, flow_snd, hfc]
  simp [subscriberLines, isFirstCommentLine, countErr, isChainError,
    List.filter_append]

/-- Witness for C10: the selected post has zero comments. -/
theorem empty_comments_success_witness :
    (flow envC10).2 =
      some (PipelineResult.mk (User.mk 1 "Leanne" "a@b.com") (Post.mk 1 "T1") []) ∧
    countErr (flow envC10).1 = 0 ∧
    ((subscriberLines (flow envC10).2).all fun l => !(isFirstCommentLine l)) = true ∧
    Line.commentCount 0 ∈ subscriberLines (flow envC10).2 :=
  empty_comments_success envC10 200 200 200 u1 [] p1 []
    (by decide) (by decide) (by decide) rfl rfl rfl

end Pipeline
